import Mathlib

/-!
Shallow embedding of the threat-modeling core of the Sentinal repository
(backend/app/services): the pattern library and matcher (threat_patterns.py),
the STRIDE engine (stride_dread_engine.py), the DREAD scorer (dread_scorer.py),
the mitigation engine (enhanced_mitigations.py) and the similarity engine
(threat_similarity.py).

Python strings are modelled as Lean String, with all text scanning done over
List Char by structural functions so that every definition is executable and
kernel-reducible.  Python floats are modelled as exact rationals: every float
comparison performed by the code (0.8 / 0.85 / 0.9 plus 0.1 boosts, averages,
thresholds 4 and 7) is far from the rounding error of IEEE doubles, so the
rational model decides every branch the same way the float code does.  Python
round (banker rounding, half to even) is modelled by pyRound; the slice
l[:limit] (with Python semantics for negative limits) by pySlice; dict
iteration and update over the DREAD score dictionary by a structure with one
Option field for the dynamically added information_disclosure key.
-/

namespace Sentinal

/-! ## String utilities (List Char based, structurally recursive) -/

/-- ASCII lower-casing of one character, as Python str.lower does on ASCII. -/
def lowerChar (c : Char) : Char :=
  if 'A' ≤ c ∧ c ≤ 'Z' then Char.ofNat (c.toNat + 32) else c

/-- Lower-case a character list. -/
def lowerL (s : List Char) : List Char := s.map lowerChar

/-- Text after the first occurrence of needle, or none when absent
(leftmost search, like re or the in operator scanning for a literal). -/
def stripAfterFirst (needle : List Char) : List Char → Option (List Char)
  | [] => if needle = [] then some [] else none
  | c :: rest =>
    if needle.isPrefixOf (c :: rest) then some ((c :: rest).drop needle.length)
    else stripAfterFirst needle rest

/-- Python substring test: needle in hay. -/
def containsSub (needle hay : List Char) : Bool :=
  (stripAfterFirst needle hay).isSome

/-- Split on newline characters, like Python str.split with a newline. -/
def splitLines : List Char → List (List Char)
  | [] => [[]]
  | c :: rest =>
    match splitLines rest with
    | [] => [[c]]
    | h :: t => if c = '\n' then [] :: h :: t else (c :: h) :: t

/-- Sequential containment of literal chunks: the chunks occur in order,
one after the other, inside the text. -/
def chunksSeq : List (List Char) → List Char → Bool
  | [], _ => true
  | c :: cs, text =>
    match stripAfterFirst c text with
    | some rest => chunksSeq cs rest
    | none => false

/--
Match of one trigger regular expression against text.  Every trigger in the
pattern library has the shape lit1.*lit2.*...*litk (literal chunks joined by
dot-star, after resolving escapes), and re.search with such a regex succeeds
exactly when some newline-free segment of the text contains the chunks
sequentially, because the dot of re does not match a newline while the
literal chunks contain none.
-/
def regexMatches (chunks : List String) (text : List Char) : Bool :=
  (splitLines text).any fun line => chunksSeq (chunks.map String.data) line

/-- Python str.strip on the ASCII whitespace actually present in the data. -/
def isSpaceChar (c : Char) : Bool :=
  c = ' ' ∨ c = '\t' ∨ c = '\n' ∨ c = '\r'

/-- Trimmed character list (strip from both ends). -/
def trimL (s : List Char) : List Char :=
  ((s.dropWhile isSpaceChar).reverse.dropWhile isSpaceChar).reverse

/-- Truthiness of an optional Python string: None and the empty string are
falsy. -/
def optTruthy : Option String → Bool
  | none => false
  | some s => s ≠ ""

/-! ## Pattern library (threat_patterns.py, THREAT_PATTERNS) -/

/-- Five baseline DREAD dimensions of a library pattern. -/
structure DreadBase where
  damage : Int
  reproducibility : Int
  exploitability : Int
  affected_users : Int
  discoverability : Int
deriving DecidableEq

/-- Static data of one library pattern: trigger regexes (as chunk lists),
STRIDE categories, baseline DREAD scores, base confidence weight and
component tags. -/
structure PatternData where
  regexes : List (List String)
  stride : List String
  suggested_dread : DreadBase
  confidence : ℚ
  component_types : List String
deriving DecidableEq

/-- Library data of the sql_injection pattern. -/
def sql_injection_data : PatternData :=
  { regexes := [["sql", "query", "concatenat"], ["database", "string", "format"],
                ["query", "without", "parameter"], ["raw", "sql", "query"],
                ["direct", "sql", "execution"], ["unsanitized", "sql"],
                ["sql", "injection"], ["execute", "query", "directly"]],
    stride := ["Tampering", "Information Disclosure", "Elevation of Privilege"],
    suggested_dread := ⟨9, 8, 9, 10, 7⟩, confidence := 9/10,
    component_types := ["database", "api", "backend"] }

/-- The THREAT_PATTERNS catalog, in declaration order. -/
def THREAT_PATTERNS : List (String × PatternData) :=
  [ ("sql_injection", sql_injection_data),
    ("xss",
     { regexes := [["user", "input", "html"], ["javascript", "inject"],
                   ["output", "without", "sanitiz"], ["cross", "site", "scripting"],
                   ["xss"], ["render", "user", "content"], ["innerhtml", "user"],
                   ["eval", "user", "input"]],
       stride := ["Tampering", "Information Disclosure"],
       suggested_dread := ⟨6, 7, 6, 7, 5⟩, confidence := 17/20,
       component_types := ["frontend", "web", "api"] }),
    ("authentication_bypass",
     { regexes := [["auth", "bypass"], ["login", "without", "password"],
                   ["weak", "authentication"], ["no", "authentication"],
                   ["bypass", "auth"], ["skip", "authentication"],
                   ["default", "credential"], ["hardcoded", "password"]],
       stride := ["Spoofing", "Elevation of Privilege"],
       suggested_dread := ⟨10, 8, 9, 10, 6⟩, confidence := 9/10,
       component_types := ["authentication", "api", "backend"] }),
    ("idor",
     { regexes := [["insecure", "direct", "object", "reference"], ["idor"],
                   ["access", "without", "authorization"], ["direct", "object", "access"],
                   ["bypass", "authorization"], ["user", "id", "in", "url"],
                   ["predictable", "resource", "id"]],
       stride := ["Elevation of Privilege", "Information Disclosure"],
       suggested_dread := ⟨8, 9, 8, 8, 7⟩, confidence := 17/20,
       component_types := ["api", "backend", "authorization"] }),
    ("csrf",
     { regexes := [["cross", "site", "request", "forgery"], ["csrf"],
                   ["no", "csrf", "token"], ["state", "changing", "request"],
                   ["form", "without", "token"], ["post", "request", "no", "validation"]],
       stride := ["Tampering", "Repudiation"],
       suggested_dread := ⟨7, 8, 7, 7, 6⟩, confidence := 4/5,
       component_types := ["web", "frontend", "api"] }),
    ("session_management",
     { regexes := [["session", "fixation"], ["weak", "session", "token"],
                   ["session", "not", "expire"], ["predictable", "session", "id"],
                   ["session", "hijack"], ["insecure", "session", "storage"]],
       stride := ["Spoofing", "Tampering"],
       suggested_dread := ⟨8, 7, 7, 8, 6⟩, confidence := 17/20,
       component_types := ["authentication", "session", "web"] }),
    ("path_traversal",
     { regexes := [["path", "traversal"], ["directory", "traversal"],
                   ["file", "path", "manipulation"], ["../", "file"],
                   ["unsanitized", "file", "path"], ["read", "file", "arbitrary"]],
       stride := ["Information Disclosure", "Tampering"],
       suggested_dread := ⟨7, 8, 7, 6, 5⟩, confidence := 17/20,
       component_types := ["file_system", "api", "backend"] }),
    ("command_injection",
     { regexes := [["command", "injection"], ["os", "command", "execute"],
                   ["shell", "command", "user", "input"], ["system", "call", "unsafe"],
                   ["exec", "user", "input"], ["subprocess", "user", "data"]],
       stride := ["Tampering", "Elevation of Privilege", "Denial of Service"],
       suggested_dread := ⟨9, 8, 7, 8, 6⟩, confidence := 9/10,
       component_types := ["backend", "system", "api"] }),
    ("xxe",
     { regexes := [["xml", "external", "entity"], ["xxe"], ["xml", "parse", "unsafe"],
                   ["external", "entity", "injection"], ["xml", "bomb"]],
       stride := ["Information Disclosure", "Denial of Service"],
       suggested_dread := ⟨7, 7, 6, 6, 5⟩, confidence := 4/5,
       component_types := ["xml_parser", "api", "backend"] }),
    ("insecure_deserialization",
     { regexes := [["insecure", "deserializ"], ["untrusted", "deserializ"],
                   ["pickle", "unsafe"], ["yaml", "load", "unsafe"],
                   ["json", "deserializ", "unsafe"]],
       stride := ["Tampering", "Elevation of Privilege", "Denial of Service"],
       suggested_dread := ⟨8, 7, 6, 7, 4⟩, confidence := 4/5,
       component_types := ["api", "backend", "data_processing"] }),
    ("ssrf",
     { regexes := [["server", "side", "request", "forgery"], ["ssrf"],
                   ["fetch", "url", "user", "input"], ["request", "arbitrary", "url"],
                   ["proxy", "user", "url"]],
       stride := ["Tampering", "Information Disclosure", "Denial of Service"],
       suggested_dread := ⟨7, 8, 7, 6, 6⟩, confidence := 17/20,
       component_types := ["api", "backend", "network"] }),
    ("broken_access_control",
     { regexes := [["broken", "access", "control"], ["missing", "authorization"],
                   ["no", "permission", "check"], ["bypass", "access", "control"],
                   ["weak", "authorization"]],
       stride := ["Elevation of Privilege", "Information Disclosure"],
       suggested_dread := ⟨9, 8, 8, 9, 7⟩, confidence := 9/10,
       component_types := ["authorization", "api", "backend"] }),
    ("sensitive_data_exposure",
     { regexes := [["sensitive", "data", "exposure"], ["password", "plaintext"],
                   ["credit", "card", "unencrypted"], ["pii", "unencrypted"],
                   ["secret", "in", "log"], ["api", "key", "exposed"]],
       stride := ["Information Disclosure"],
       suggested_dread := ⟨9, 10, 8, 10, 8⟩, confidence := 9/10,
       component_types := ["data_store", "api", "logging"] }),
    ("dos",
     { regexes := [["denial", "of", "service"], ["dos"], ["resource", "exhaustion"],
                   ["rate", "limit", "missing"], ["unlimited", "requests"],
                   ["expensive", "operation", "no", "limit"]],
       stride := ["Denial of Service"],
       suggested_dread := ⟨6, 9, 8, 9, 7⟩, confidence := 17/20,
       component_types := ["api", "backend", "network"] }) ]

/-! ## Component classifier (threat_patterns.py, detect_component_type) -/

/-- Lower-cased concatenation of asset and flow, the scanned text of the
component detector and of the DREAD contextual adjustments. -/
def assetFlowText (asset flow : String) : List Char :=
  lowerL (asset.data ++ (' ' :: flow.data))

/-- Keyword groups of detect_component_type, in source order. -/
def componentKeywordGroups : List (List String × String) :=
  [ (["database", "db", "postgres", "mysql", "mongodb", "sql"], "database"),
    (["api", "endpoint", "rest", "graphql", "service"], "api"),
    (["auth", "login", "credential", "token", "session"], "authentication"),
    (["authorize", "permission", "role", "access control"], "authorization"),
    (["frontend", "ui", "web", "browser", "client"], "frontend"),
    (["backend", "server", "application"], "backend"),
    (["file", "storage", "s3", "blob"], "file_system"),
    (["network", "http", "https", "tcp", "udp"], "network"),
    (["log", "audit", "monitoring"], "logging") ]

/-- Does any keyword of the group occur in the text - the Python test
any(keyword in text for keyword in group). -/
def anyKeywordIn (group : List String) (text : List Char) : Bool :=
  group.any fun kw => containsSub kw.data text

/-- Tags of the keyword groups that fire on the text, in group order. -/
def detectedComponentsRaw (asset flow : String) : List String :=
  componentKeywordGroups.filterMap fun g =>
    if anyKeywordIn g.1 (assetFlowText asset flow) then some g.2 else none

/-- detect_component_type: collect the tag of every keyword group that fires,
falling back to the singleton generic list. -/
def detect_component_type (asset flow : String) : List String :=
  if detectedComponentsRaw asset flow = [] then ["generic"]
  else detectedComponentsRaw asset flow

/-! ## Pattern matcher (threat_patterns.py, match_threat_patterns) -/

/-- One ephemeral pattern match: name, resolved confidence, pattern data. -/
structure PMatch where
  name : String
  confidence : ℚ
  data : PatternData
deriving DecidableEq

/-- Lower-cased search text of the matcher: asset, flow and the trust
boundary (empty string when absent), space separated. -/
def matchText (asset flow : String) (trust_boundary : Option String) : List Char :=
  lowerL (asset.data ++ (' ' :: flow.data) ++ (' ' :: (trust_boundary.getD "").data))

/-- Matches collected in library declaration order, before sorting: a pattern
is included when at least one of its trigger regexes matches, its confidence
is the base weight of the pattern boosted by 0.1 (capped at 1) when the
detected component types intersect the component tags of the pattern. -/
def collectMatches (asset flow : String) (trust_boundary : Option String) : List PMatch :=
  let text := matchText asset flow trust_boundary
  let component_types := detect_component_type asset flow
  THREAT_PATTERNS.filterMap fun p =>
    if p.2.regexes.any (fun r => regexMatches r text) then
      let boosted := component_types.any fun ct => p.2.component_types.contains ct
      let confidence := if boosted then min (p.2.confidence + 1/10) 1 else p.2.confidence
      some ⟨p.1, confidence, p.2⟩
    else none

/-- Sort order of the matcher output: descending by resolved confidence. -/
def confGE (a b : PMatch) : Prop := b.confidence ≤ a.confidence

instance : DecidableRel confGE :=
  fun a b => inferInstanceAs (Decidable (b.confidence ≤ a.confidence))

instance : IsTotal PMatch confGE :=
  ⟨fun a b => le_total b.confidence a.confidence⟩

instance : IsTrans PMatch confGE :=
  ⟨fun _ _ _ h1 h2 => le_trans h2 h1⟩

/-- match_threat_patterns: collected matches, sorted descending by
confidence with a stable sort (Python list.sort is stable, modelled by the
stable insertion sort). -/
def match_threat_patterns (asset flow : String) (trust_boundary : Option String) : List PMatch :=
  List.insertionSort confGE (collectMatches asset flow trust_boundary)

/-- get_stride_from_patterns: union of the STRIDE category sets of the
matches (a Python set, modelled as a Finset). -/
def get_stride_from_patterns (matched_patterns : List PMatch) : Finset String :=
  matched_patterns.foldl (fun acc m => acc ∪ m.data.stride.toFinset) ∅

/-! ## DREAD baseline from patterns (get_suggested_dread_from_patterns) -/

/-- Python round on rationals: round half to even (banker rounding). -/
def pyRound (q : ℚ) : Int :=
  if q - ⌊q⌋ < 1/2 then ⌊q⌋
  else if 1/2 < q - ⌊q⌋ then ⌊q⌋ + 1
  else if ⌊q⌋ % 2 = 0 then ⌊q⌋ else ⌊q⌋ + 1

/-- Total confidence weight of a match list. -/
def totalWeight (matched_patterns : List PMatch) : ℚ :=
  (matched_patterns.map (·.confidence)).sum

/-- One dimension of the confidence-weighted baseline: the code accumulates
dread[key] * (confidence / total_weight) over the matches, with the divisor
replaced by 1 when the total weight is 0, and rounds the sum. -/
def weightedDim (matched_patterns : List PMatch) (f : DreadBase → Int) : Int :=
  pyRound ((matched_patterns.map
    fun m => (f m.data.suggested_dread : ℚ) *
      (m.confidence /
        (if totalWeight matched_patterns = 0 then 1 else totalWeight matched_patterns))).sum)

/-- get_suggested_dread_from_patterns: neutral 5s when no pattern matched,
otherwise the rounded confidence-weighted accumulation per dimension. -/
def get_suggested_dread_from_patterns (matched_patterns : List PMatch) : DreadBase :=
  if matched_patterns = [] then ⟨5, 5, 5, 5, 5⟩
  else
    ⟨weightedDim matched_patterns (·.damage),
     weightedDim matched_patterns (·.reproducibility),
     weightedDim matched_patterns (·.exploitability),
     weightedDim matched_patterns (·.affected_users),
     weightedDim matched_patterns (·.discoverability)⟩

/-! ## STRIDE engine (stride_dread_engine.py) -/

/-- Categories collected by the keyword fallback of analyze_threat: six
independent keyword groups over the lower-cased flow text, plus the
boundary-crossing test that also fires on a truthy trust boundary.  Python
set.add accumulation is modelled as a union of conditional Finsets. -/
def strideKeywordCats (flow : String) (trust_boundary : Option String) : Finset String :=
  let fl := lowerL flow.data
  (if anyKeywordIn ["auth", "login", "credential", "password", "token"] fl then
    {"Spoofing", "Elevation of Privilege"} else ∅) ∪
  (if optTruthy trust_boundary || containsSub "boundary".data fl || containsSub "cross".data fl then
    {"Tampering", "Information Disclosure"} else ∅) ∪
  (if anyKeywordIn ["store", "database", "file", "save"] fl then
    {"Tampering", "Information Disclosure", "Denial of Service"} else ∅) ∪
  (if anyKeywordIn ["external", "third-party", "api", "service"] fl then
    {"Spoofing", "Repudiation"} else ∅) ∪
  (if anyKeywordIn ["network", "http", "https", "tcp", "udp", "send", "receive"] fl then
    {"Tampering", "Information Disclosure", "Denial of Service"} else ∅) ∪
  (if anyKeywordIn ["log", "audit", "record"] fl then ({"Repudiation"} : Finset String) else ∅)

/-- STRIDE_MAP entry for Data Flow Crossing Boundary. -/
def dataFlowCrossingBoundaryCats : Finset String := {"Tampering", "Information Disclosure"}

/-- analyze_threat: keyword categories, with the default fallback when the
keyword scan found nothing (the asset argument is not inspected by the
source).  Both default branches produce the same two categories. -/
def analyze_threat (asset flow : String) (trust_boundary : Option String) : Finset String :=
  if strideKeywordCats flow trust_boundary = ∅ then
    if optTruthy trust_boundary then dataFlowCrossingBoundaryCats
    else {"Tampering", "Information Disclosure"}
  else strideKeywordCats flow trust_boundary

/-- Category set of analyze_threat_advanced: union over matched patterns,
falling back to the basic keyword analysis when no pattern matched. -/
def analyze_threat_advanced_categories (asset flow : String)
    (trust_boundary : Option String) : Finset String :=
  if get_stride_from_patterns (match_threat_patterns asset flow trust_boundary) = ∅ then
    analyze_threat asset flow trust_boundary
  else get_stride_from_patterns (match_threat_patterns asset flow trust_boundary)

/-- Arithmetic mean of five DREAD dimensions. -/
def dreadMean (damage reproducibility exploitability affected_users discoverability : Int) : ℚ :=
  ((damage + reproducibility + exploitability + affected_users + discoverability : Int) : ℚ) / 5

/-- Fixed risk thresholds of calculate_dread_score. -/
def riskLevelOfMean (m : ℚ) : String :=
  if 7 < m then "High" else if 4 < m then "Medium" else "Low"

/-- Python round(x, 2). -/
def pyRound2 (q : ℚ) : ℚ := (pyRound (q * 100) : ℚ) / 100

/-- Result of calculate_dread_score: the displayed total score (rounded to
two decimals) and the risk level derived from the unrounded mean. -/
structure DreadScore where
  total_score : ℚ
  risk_level : String
deriving DecidableEq

/-- calculate_dread_score of the STRIDE engine. -/
def calculate_dread_score
    (damage reproducibility exploitability affected_users discoverability : Int) : DreadScore :=
  let m := dreadMean damage reproducibility exploitability affected_users discoverability
  { total_score := pyRound2 m, risk_level := riskLevelOfMean m }

/-! ## DREAD scorer (dread_scorer.py) -/

/-- The score dictionary produced by the scorer: the five DREAD dimensions
are always present; information_disclosure is a sixth key added only when a
database component is detected. -/
structure ScoresMap where
  damage : Int
  reproducibility : Int
  exploitability : Int
  affected_users : Int
  discoverability : Int
  information_disclosure : Option Int
deriving DecidableEq

/-- The per-key confidence dictionary, keyed like ScoresMap. -/
structure ConfMap where
  damage : ℚ
  reproducibility : ℚ
  exploitability : ℚ
  affected_users : ℚ
  discoverability : ℚ
  information_disclosure : Option ℚ
deriving DecidableEq

/-- User override dictionary d of suggest_dread_scores: an optional entry
per key the scorer may hold. -/
structure UserScores where
  damage : Option Int
  reproducibility : Option Int
  exploitability : Option Int
  affected_users : Option Int
  discoverability : Option Int
  information_disclosure : Option Int
deriving DecidableEq

/-- Empty override dictionary. -/
def noUserScores : UserScores := ⟨none, none, none, none, none, none⟩

/-- Critical-infrastructure keywords of _adjust_scores_by_context. -/
def critical_keywords : List String :=
  ["payment", "financial", "bank", "credit card", "pii", "personal data", "health",
   "medical", "patient", "authentication", "authorization", "admin", "root",
   "critical", "production", "live"]

/-- External-exposure keywords of _adjust_scores_by_context. -/
def external_keywords : List String := ["public", "internet", "external", "api", "web", "http"]

/-- Adjustment step 1: critical keywords bump damage and affected users. -/
def adjustCritical (s : ScoresMap) (text : List Char) : ScoresMap :=
  if anyKeywordIn critical_keywords text then
    { s with damage := min (s.damage + 1) 10, affected_users := min (s.affected_users + 1) 10 }
  else s

/-- Adjustment step 2: external exposure bumps discoverability and
exploitability. -/
def adjustExternal (s : ScoresMap) (text : List Char) : ScoresMap :=
  if anyKeywordIn external_keywords text then
    { s with discoverability := min (s.discoverability + 1) 10,
             exploitability := min (s.exploitability + 1) 10 }
  else s

/-- Adjustment step 3: authentication or authorization components bump
damage and affected users. -/
def adjustAuthComponent (s : ScoresMap) (component_types : List String) : ScoresMap :=
  if component_types.contains "authentication" || component_types.contains "authorization" then
    { s with damage := min (s.damage + 1) 10, affected_users := min (s.affected_users + 1) 10 }
  else s

/-- Adjustment step 4: a database component bumps damage and then writes the
extra information_disclosure key from the already bumped damage (the source
reads the damage entry it just updated, defaulting the absent extra key to
it, and adds one more, capped at 10). -/
def adjustDatabase (s : ScoresMap) (component_types : List String) : ScoresMap :=
  if component_types.contains "database" then
    { s with damage := min (s.damage + 1) 10,
             information_disclosure :=
               some (min ((s.information_disclosure.getD (min (s.damage + 1) 10)) + 1) 10) }
  else s

/-- _adjust_scores_by_context: the four contextual steps in source order. -/
def adjust_scores_by_context (base : ScoresMap) (asset flow : String)
    (component_types : List String) : ScoresMap :=
  let text := assetFlowText asset flow
  adjustDatabase
    (adjustAuthComponent (adjustExternal (adjustCritical base text) text) component_types)
    component_types

/-- Average confidence of the matches, 0.4 when there are none. -/
def avgPatternConfidence (matched_patterns : List PMatch) : ℚ :=
  if matched_patterns = [] then 2/5
  else totalWeight matched_patterns / matched_patterns.length

/-- Confidence bonus for detected component types: 0.1 when the detected
list is non-empty (truthy), else 0. -/
def componentBoost (component_types : List String) : ℚ :=
  if component_types = [] then 0 else 1/10

/-- Base confidence of _calculate_confidence. -/
def baseConfidence (matched_patterns : List PMatch) (component_types : List String) : ℚ :=
  min (avgPatternConfidence matched_patterns + componentBoost component_types) 1

/-- Per-dimension confidence of one of the five core dimensions: every
library pattern carries all five baseline dimensions, so when patterns
matched the dimension blends the base confidence with the distance of the
score from the average pattern baseline. -/
def dimConfidence (matched_patterns : List PMatch) (base : ℚ) (score : Int)
    (f : DreadBase → Int) : ℚ :=
  if matched_patterns = [] then base
  else
    let pattern_scores := matched_patterns.map fun m => (f m.data.suggested_dread : ℚ)
    let avg := pattern_scores.sum / pattern_scores.length
    let score_confidence := max 0 (1 - |(score : ℚ) - avg| / 10)
    (base + score_confidence) / 2

/-- _calculate_confidence: one confidence entry per key of the score
dictionary.  No library pattern suggests the extra information_disclosure
key, so that key always receives the plain base confidence. -/
def calculate_confidence (matched_patterns : List PMatch) (scores : ScoresMap)
    (component_types : List String) : ConfMap :=
  { damage := dimConfidence matched_patterns
      (baseConfidence matched_patterns component_types) scores.damage (·.damage),
    reproducibility := dimConfidence matched_patterns
      (baseConfidence matched_patterns component_types) scores.reproducibility (·.reproducibility),
    exploitability := dimConfidence matched_patterns
      (baseConfidence matched_patterns component_types) scores.exploitability (·.exploitability),
    affected_users := dimConfidence matched_patterns
      (baseConfidence matched_patterns component_types) scores.affected_users (·.affected_users),
    discoverability := dimConfidence matched_patterns
      (baseConfidence matched_patterns component_types) scores.discoverability (·.discoverability),
    information_disclosure := scores.information_disclosure.map
      fun _ => baseConfidence matched_patterns component_types }

/-- Override application to the score dictionary: a user entry replaces the
adjusted value for every key present in the dictionary. -/
def applyScoreOverrides (s : ScoresMap) (u : UserScores) : ScoresMap :=
  { damage := u.damage.getD s.damage,
    reproducibility := u.reproducibility.getD s.reproducibility,
    exploitability := u.exploitability.getD s.exploitability,
    affected_users := u.affected_users.getD s.affected_users,
    discoverability := u.discoverability.getD s.discoverability,
    information_disclosure :=
      s.information_disclosure.map fun v => u.information_disclosure.getD v }

/-- Override application to the confidence dictionary: an overridden key
gets confidence 1. -/
def applyConfOverrides (c : ConfMap) (u : UserScores) : ConfMap :=
  { damage := if u.damage.isSome then 1 else c.damage,
    reproducibility := if u.reproducibility.isSome then 1 else c.reproducibility,
    exploitability := if u.exploitability.isSome then 1 else c.exploitability,
    affected_users := if u.affected_users.isSome then 1 else c.affected_users,
    discoverability := if u.discoverability.isSome then 1 else c.discoverability,
    information_disclosure :=
      c.information_disclosure.map fun v => if u.information_disclosure.isSome then 1 else v }

/-- Output of suggest_dread_scores. -/
structure DreadSuggestion where
  suggested_scores : ScoresMap
  confidence : ConfMap
  matched_patterns : List String
  component_types : List String
deriving DecidableEq

/-- Baseline score dictionary of the scorer: the five pattern-derived
dimensions, and no extra key yet. -/
def dreadBaseline (asset flow : String) (trust_boundary : Option String) : ScoresMap :=
  ⟨(get_suggested_dread_from_patterns (match_threat_patterns asset flow trust_boundary)).damage,
   (get_suggested_dread_from_patterns (match_threat_patterns asset flow trust_boundary)).reproducibility,
   (get_suggested_dread_from_patterns (match_threat_patterns asset flow trust_boundary)).exploitability,
   (get_suggested_dread_from_patterns (match_threat_patterns asset flow trust_boundary)).affected_users,
   (get_suggested_dread_from_patterns (match_threat_patterns asset flow trust_boundary)).discoverability,
   none⟩

/-- suggest_dread_scores: match patterns, build the baseline, adjust by
context, compute confidences, then apply user overrides. -/
def suggest_dread_scores (asset flow : String) (trust_boundary : Option String)
    (user_scores : UserScores) : DreadSuggestion :=
  let matched := match_threat_patterns asset flow trust_boundary
  let component_types := detect_component_type asset flow
  let adjusted :=
    adjust_scores_by_context (dreadBaseline asset flow trust_boundary) asset flow component_types
  let conf := calculate_confidence matched adjusted component_types
  { suggested_scores := applyScoreOverrides adjusted user_scores,
    confidence := applyConfOverrides conf user_scores,
    matched_patterns := matched.map (·.name),
    component_types := component_types }

/-- Sum of the values of the score dictionary, over the five or six keys
actually present - the expression sum(dread_scores.values()) of the threat
detector. -/
def scoresValuesSum (s : ScoresMap) : Int :=
  s.damage + s.reproducibility + s.exploitability + s.affected_users + s.discoverability +
    (s.information_disclosure.getD 0)

/-- Total score computed by _create_or_link_threat: the values of the score
dictionary summed and divided by five. -/
def detector_total_score (s : ScoresMap) : ℚ := (scoresValuesSum s : ℚ) / 5

/-! ## Mitigation engine (enhanced_mitigations.py) -/

/-- One mitigation entry. -/
structure Mitig where
  text : String
  priority : String
  difficulty : String
  effectiveness : Int
deriving DecidableEq

/-- _get_pattern_mitigations: dedicated sets for three patterns. -/
def get_pattern_mitigations (pattern : String) : List Mitig :=
  if pattern = "sql_injection" then
    [⟨"URGENT: Use parameterized queries or prepared statements for all database operations",
      "high", "easy", 9⟩,
     ⟨"Implement input validation using whitelist approach", "high", "medium", 8⟩,
     ⟨"Apply principle of least privilege to database user accounts", "medium", "medium", 7⟩]
  else if pattern = "xss" then
    [⟨"Implement output encoding (HTML entity encoding) for all user-generated content",
      "high", "easy", 9⟩,
     ⟨"Use Content Security Policy (CSP) headers", "high", "medium", 8⟩,
     ⟨"Validate and sanitize all user input before rendering", "medium", "medium", 7⟩]
  else if pattern = "authentication_bypass" then
    [⟨"CRITICAL: Implement strong authentication mechanisms immediately", "high", "hard", 10⟩,
     ⟨"Enable multi-factor authentication (MFA) for all users", "high", "medium", 9⟩,
     ⟨"Use secure password storage (bcrypt, Argon2)", "high", "easy", 8⟩]
  else []

/-- Base mitigation sets per STRIDE category, before any escalation. -/
def baseStrideMitigations (category : String) : List Mitig :=
  if category = "Spoofing" then
    [⟨"Implement strong authentication mechanisms (MFA, certificate-based auth)",
      "high", "medium", 9⟩,
     ⟨"Use digital signatures for critical communications", "medium", "medium", 7⟩]
  else if category = "Tampering" then
    [⟨"Use cryptographic signatures and integrity checks", "high", "medium", 8⟩,
     ⟨"Implement input validation and sanitization", "high", "easy", 8⟩,
     ⟨"Use HTTPS/TLS for all network communications", "medium", "easy", 7⟩]
  else if category = "Repudiation" then
    [⟨"Implement comprehensive audit logging", "high", "easy", 8⟩,
     ⟨"Use digital signatures for critical transactions", "medium", "medium", 7⟩,
     ⟨"Implement non-repudiation mechanisms", "medium", "hard", 8⟩]
  else if category = "Information Disclosure" then
    [⟨"Encrypt sensitive data at rest and in transit", "high", "medium", 9⟩,
     ⟨"Implement proper access controls and least privilege", "high", "medium", 8⟩,
     ⟨"Use data masking for sensitive information in logs", "medium", "easy", 6⟩]
  else if category = "Denial of Service" then
    [⟨"Implement rate limiting and resource quotas", "high", "easy", 8⟩,
     ⟨"Use load balancing and redundancy", "medium", "hard", 7⟩,
     ⟨"Implement DDoS protection", "medium", "medium", 8⟩]
  else if category = "Elevation of Privilege" then
    [⟨"Implement principle of least privilege", "high", "medium", 9⟩,
     ⟨"Use role-based access control (RBAC)", "high", "medium", 8⟩,
     ⟨"Regular security audits and privilege reviews", "medium", "medium", 7⟩]
  else []

/-- _get_stride_mitigations: the base set of the category, with every medium
priority raised to high when the risk level is High.  This per-category
escalation is the only priority escalation in the engine. -/
def get_stride_mitigations (category risk_level : String) : List Mitig :=
  let mitigations := baseStrideMitigations category
  if risk_level = "High" then
    mitigations.map fun m =>
      if m.priority = "medium" then { m with priority := "high" } else m
  else mitigations

/-- _get_component_mitigations: entries for database, api and authentication
component types; two entries choose priority conditionally on High risk. -/
def get_component_mitigations (component_types : List String) (risk_level : String) : List Mitig :=
  (if component_types.contains "database" then
    [⟨"Enable database encryption at rest",
      if risk_level = "High" then "high" else "medium", "medium", 8⟩,
     ⟨"Implement database access controls and audit logging", "high", "medium", 8⟩]
   else []) ++
  (if component_types.contains "api" then
    [⟨"Implement API rate limiting and throttling",
      if risk_level = "High" then "high" else "medium", "easy", 7⟩,
     ⟨"Use API authentication and authorization (OAuth2, API keys)", "high", "medium", 9⟩]
   else []) ++
  (if component_types.contains "authentication" then
    [⟨"Implement account lockout after failed login attempts", "medium", "easy", 7⟩,
     ⟨"Use secure session management with proper expiration", "high", "medium", 8⟩]
   else [])

/-- The low-risk catch-all entry. -/
def monitorMitigation : Mitig :=
  ⟨"Monitor and address in regular security maintenance.", "low", "easy", 5⟩

/-- _get_risk_level_mitigations: High and Medium have dedicated entries,
every other risk level string reaches the else branch. -/
def get_risk_level_mitigations (risk_level : String) : List Mitig :=
  if risk_level = "High" then
    [⟨"URGENT: Address immediately. Schedule security review and penetration testing.",
      "high", "hard", 10⟩,
     ⟨"Implement temporary mitigation measures while permanent fix is developed",
      "high", "medium", 6⟩]
  else if risk_level = "Medium" then
    [⟨"Address within next sprint. Schedule security review.", "medium", "medium", 7⟩]
  else [monitorMitigation]

/-- Deduplication by lower-cased trimmed text, first occurrence wins. -/
def dedupMitigations : List Mitig → List (List Char) → List Mitig
  | [], _ => []
  | m :: rest, seen =>
    let key := trimL (lowerL m.text.data)
    if seen.contains key then dedupMitigations rest seen
    else m :: dedupMitigations rest (key :: seen)

/-- Numeric priority rank used by the final sort. -/
def priorityOrder (p : String) : Int :=
  if p = "high" then 3 else if p = "medium" then 2 else if p = "low" then 1 else 1

/-- Descending lexicographic order on (priority rank, effectiveness), the
reversed sort key of _prioritize_mitigations. -/
def mitigGE (a b : Mitig) : Prop :=
  priorityOrder b.priority < priorityOrder a.priority ∨
    (priorityOrder b.priority = priorityOrder a.priority ∧ b.effectiveness ≤ a.effectiveness)

instance : DecidableRel mitigGE := fun a b =>
  inferInstanceAs (Decidable (priorityOrder b.priority < priorityOrder a.priority ∨
    (priorityOrder b.priority = priorityOrder a.priority ∧ b.effectiveness ≤ a.effectiveness)))

/-- _prioritize_mitigations: deduplicate, then stable sort by descending
(priority rank, effectiveness). -/
def prioritize_mitigations (mitigations : List Mitig) : List Mitig :=
  List.insertionSort mitigGE (dedupMitigations mitigations [])

/-- Output of get_mitigations. -/
structure MitigResult where
  mitigations : List Mitig
  total_count : Nat
  high_priority_count : Nat
  medium_priority_count : Nat
  low_priority_count : Nat
deriving DecidableEq

/-- get_mitigations: pattern-specific, STRIDE-category, component-specific
and risk-level sets concatenated in source order, then prioritized and
deduplicated, with counts of the result. -/
def get_mitigations (stride_categories : List String) (risk_level : String)
    (threat_pattern : Option String) (component_types : Option (List String)) : MitigResult :=
  let patternPart :=
    if optTruthy threat_pattern ∧ THREAT_PATTERNS.any (fun p => p.1 = threat_pattern.getD "")
    then get_pattern_mitigations (threat_pattern.getD "") else []
  let stridePart := stride_categories.flatMap fun c => get_stride_mitigations c risk_level
  let componentPart :=
    match component_types with
    | some cs => if cs = [] then [] else get_component_mitigations cs risk_level
    | none => []
  let riskPart := get_risk_level_mitigations risk_level
  let prioritized := prioritize_mitigations (patternPart ++ stridePart ++ componentPart ++ riskPart)
  { mitigations := prioritized,
    total_count := prioritized.length,
    high_priority_count := (prioritized.filter fun m => m.priority = "high").length,
    medium_priority_count := (prioritized.filter fun m => m.priority = "medium").length,
    low_priority_count := (prioritized.filter fun m => m.priority = "low").length }

/-! ## Similarity engine (threat_similarity.py) -/

/-- The DREAD score dictionary persisted on a threat record: any of the five
keys may be absent (get with default 5 in the engine). -/
structure DreadMap where
  damage : Option Int
  reproducibility : Option Int
  exploitability : Option Int
  affected_users : Option Int
  discoverability : Option Int
deriving DecidableEq

/-- A persisted threat record, as read by the similarity engine. -/
structure Threat where
  id : Nat
  asset : String
  flow : String
  trust_boundary : Option String
  stride_categories : Option (List String)
  dread_score : Option DreadMap
  risk_level : String
deriving DecidableEq

/-- Value of one DREAD key of a record: the record dictionary may be None
(replaced by an empty dictionary) and each key defaults to 5. -/
def dreadGet (m : Option DreadMap) (f : DreadMap → Option Int) : Int :=
  match m with
  | none => 5
  | some mm => (f mm).getD 5

/-- STRIDE set of a record (None is replaced by the empty list). -/
def strideSetOf (t : Threat) : Finset String := (t.stride_categories.getD []).toFinset

/-- Matched pattern name set of a record. -/
def patternNamesOf (t : Threat) : Finset String :=
  ((match_threat_patterns t.asset t.flow t.trust_boundary).map (·.name)).toFinset

/-- Risk rank dictionary with default 2: Low 1, Medium 2, High 3, anything
else 2. -/
def riskNum (s : String) : Int :=
  if s = "Low" then 1 else if s = "Medium" then 2 else if s = "High" then 3 else 2

/-- Jaccard index of two string sets, contributing 0 when the union is empty
(the source skips the addition entirely in that case). -/
def jaccardOrZero (s t : Finset String) : ℚ :=
  if s ∪ t = ∅ then 0 else ((s ∩ t).card : ℚ) / ((s ∪ t).card : ℚ)

/-- Asset factor: 1 on case-insensitive equality, 0.5 on substring
containment either way, else 0. -/
def assetFactor (target candidate : Threat) : ℚ :=
  let ta := lowerL target.asset.data
  let ca := lowerL candidate.asset.data
  if ta = ca then 1
  else if containsSub ta ca || containsSub ca ta then 1/2
  else 0

/-- Risk factor: 1 - |difference of ranks| / 2, clamped below at 0. -/
def riskFactor (target candidate : Threat) : ℚ :=
  max 0 (1 - |((riskNum target.risk_level - riskNum candidate.risk_level : Int) : ℚ)| / 2)

/-- One DREAD dimension of the fifth factor: 1 - |difference| / 10, clamped
below at 0. -/
def dreadDimSim (target candidate : Threat) (f : DreadMap → Option Int) : ℚ :=
  max 0 (1 - |((dreadGet target.dread_score f - dreadGet candidate.dread_score f : Int) : ℚ)| / 10)

/-- DREAD factor: average of the five per-dimension similarities (the list
of dimensions is never empty, so the average is always added). -/
def dreadFactor (target candidate : Threat) : ℚ :=
  (dreadDimSim target candidate (·.damage) + dreadDimSim target candidate (·.reproducibility) +
   dreadDimSim target candidate (·.exploitability) +
   dreadDimSim target candidate (·.affected_users) +
   dreadDimSim target candidate (·.discoverability)) / 5

/-- _calculate_similarity: sum of the five factors divided by the factor
count, which is always 5.  The target pattern set and STRIDE set are
computed once by the caller and passed in. -/
def calculate_similarity (target candidate : Threat)
    (target_patterns target_stride : Finset String) : ℚ :=
  (assetFactor target candidate +
   jaccardOrZero target_stride (strideSetOf candidate) +
   jaccardOrZero target_patterns (patternNamesOf candidate) +
   riskFactor target candidate +
   dreadFactor target candidate) / 5

/-- Pairwise similarity as find_similar_threats computes it: the target
pattern and STRIDE sets are derived from the target record. -/
def similarityBetween (target candidate : Threat) : ℚ :=
  calculate_similarity target candidate (patternNamesOf target) (strideSetOf target)

/-- Python slice l[:limit]: a nonnegative limit keeps at most limit leading
entries; a negative limit drops the last |limit| entries. -/
def pySlice (l : List α) (limit : Int) : List α :=
  if 0 ≤ limit then l.take limit.toNat else l.take ((l.length : Int) + limit).toNat

/-- One similarity result: the candidate record, the score rounded to two
decimals, and the percentage rounded to one decimal. -/
structure SimilarityEntry where
  threat : Threat
  similarity_score : ℚ
  similarity_percentage : ℚ
deriving DecidableEq

/-- Sort order of the result list: descending by rounded similarity score. -/
def simGE (a b : SimilarityEntry) : Prop := b.similarity_score ≤ a.similarity_score

instance : DecidableRel simGE :=
  fun a b => inferInstanceAs (Decidable (b.similarity_score ≤ a.similarity_score))

/-- Kept similarity entries before sorting: every corpus record with a
different id whose similarity against the target is positive, in corpus
order.  The target pattern and STRIDE sets are computed once upfront in the
source; the computation is pure, so writing them inline is extensionally
identical. -/
def similarityEntries (target : Threat) (corpus : List Threat) : List SimilarityEntry :=
  (corpus.filter fun t => t.id ≠ target.id).filterMap fun t =>
    if 0 < calculate_similarity target t (patternNamesOf target) (strideSetOf target) then
      some ⟨t,
        pyRound2 (calculate_similarity target t (patternNamesOf target) (strideSetOf target)),
        (pyRound (calculate_similarity target t (patternNamesOf target) (strideSetOf target)
          * 100 * 10) : ℚ) / 10⟩
    else none

/-- find_similar_threats: the database query for all records with a
different id is modelled by filtering the corpus list; candidates with
positive similarity are kept, sorted descending by rounded score (stable),
and cut by the Python slice with the given limit. -/
def find_similar_threats (target : Threat) (corpus : List Threat) (limit : Int) :
    List SimilarityEntry :=
  pySlice (List.insertionSort simGE (similarityEntries target corpus)) limit

/-! ## Specification-side definitions and range predicates used by the
verification statements -/

/-- One dimension of the DREAD baseline as the specification words it:
weights are the confidences normalized to sum 1, and when the total
confidence is 0 the weights are treated as uniform, making the result the
plain average of the pattern baselines.  This definition follows the
specification text and exists to be compared with the source-derived
get_suggested_dread_from_patterns. -/
def specBaselineDim (matched_patterns : List PMatch) (f : DreadBase → Int) : Int :=
  if totalWeight matched_patterns = 0 then
    pyRound ((matched_patterns.map fun m => (f m.data.suggested_dread : ℚ)).sum /
      matched_patterns.length)
  else
    pyRound ((matched_patterns.map
      fun m => (f m.data.suggested_dread : ℚ) *
        (m.confidence / totalWeight matched_patterns)).sum)

/-- The DREAD baseline as the specification words it: neutral 5s on an empty
match list, otherwise the per-dimension normalized weighted average with the
uniform fallback. -/
def dread_baseline_spec (matched_patterns : List PMatch) : DreadBase :=
  if matched_patterns = [] then ⟨5, 5, 5, 5, 5⟩
  else
    ⟨specBaselineDim matched_patterns (·.damage),
     specBaselineDim matched_patterns (·.reproducibility),
     specBaselineDim matched_patterns (·.exploitability),
     specBaselineDim matched_patterns (·.affected_users),
     specBaselineDim matched_patterns (·.discoverability)⟩

/-- A DREAD value inside the documented range. -/
def scoreInRange (n : Int) : Prop := 0 ≤ n ∧ n ≤ 10

instance : DecidablePred scoreInRange := fun n =>
  inferInstanceAs (Decidable (0 ≤ n ∧ n ≤ 10))

/-- All five baseline dimensions of a library pattern inside [0, 10]. -/
def dreadBaseInRange (d : DreadBase) : Prop :=
  scoreInRange d.damage ∧ scoreInRange d.reproducibility ∧ scoreInRange d.exploitability ∧
    scoreInRange d.affected_users ∧ scoreInRange d.discoverability

instance : DecidablePred dreadBaseInRange := fun d =>
  inferInstanceAs (Decidable (scoreInRange d.damage ∧ scoreInRange d.reproducibility ∧
    scoreInRange d.exploitability ∧ scoreInRange d.affected_users ∧
    scoreInRange d.discoverability))

/-- All five core dimensions of a score dictionary inside [0, 10]. -/
def scoresMapInRange (s : ScoresMap) : Prop :=
  scoreInRange s.damage ∧ scoreInRange s.reproducibility ∧ scoreInRange s.exploitability ∧
    scoreInRange s.affected_users ∧ scoreInRange s.discoverability

/-- An optional override entry inside [0, 10] when present. -/
def optScoreValid : Option Int → Prop
  | none => True
  | some v => 0 ≤ v ∧ v ≤ 10

instance : DecidablePred optScoreValid := fun o =>
  match o with
  | none => inferInstanceAs (Decidable True)
  | some v => inferInstanceAs (Decidable (0 ≤ v ∧ v ≤ 10))

/-- The caller contract on user overrides: every supplied entry lies in
[0, 10]. -/
def userScoresValid (u : UserScores) : Prop :=
  optScoreValid u.damage ∧ optScoreValid u.reproducibility ∧ optScoreValid u.exploitability ∧
    optScoreValid u.affected_users ∧ optScoreValid u.discoverability ∧
    optScoreValid u.information_disclosure

instance : DecidablePred userScoresValid := fun u =>
  inferInstanceAs (Decidable (optScoreValid u.damage ∧ optScoreValid u.reproducibility ∧
    optScoreValid u.exploitability ∧ optScoreValid u.affected_users ∧
    optScoreValid u.discoverability ∧ optScoreValid u.information_disclosure))

/-! ## Concrete records used by witnesses and counterexamples -/

/-- A record whose flow matches exactly the sql_injection pattern. -/
def simT0 : Threat :=
  ⟨0, "a", "sql injection", none, some ["Tampering"],
   some ⟨some 5, some 5, some 5, some 5, some 5⟩, "High"⟩

/-- Clone of simT0 under a different id. -/
def simT1 : Threat := { simT0 with id := 1 }

/-- Second clone of simT0 under a different id. -/
def simT2 : Threat := { simT0 with id := 2 }

/-- A record whose text matches no library pattern. -/
def noPatT1 : Threat :=
  ⟨1, "alpha", "beta", none, some ["Tampering"],
   some ⟨some 5, some 5, some 5, some 5, some 5⟩, "High"⟩

/-- Clone of noPatT1 under a different id. -/
def noPatT2 : Threat := { noPatT1 with id := 2 }

/-- A match of the sql_injection pattern carrying confidence 0, an input on
which the weighted baseline divisor degenerates. -/
def mZeroConf : PMatch := ⟨"sql_injection", 0, sql_injection_data⟩

/-- A match of the sql_injection pattern at its base confidence. -/
def mNormal : PMatch := ⟨"sql_injection", 9/10, sql_injection_data⟩

/-- A small valid override dictionary used by witnesses. -/
def uWitness : UserScores := ⟨some 3, none, none, none, none, none⟩

/-- An override dictionary touching the extra information_disclosure key. -/
def uInfoWitness : UserScores := ⟨none, none, none, none, none, some 4⟩

/-! ## Helper lemmas -/

theorem mem_match_iff {asset flow : String} {tb : Option String} {m : PMatch} :
    m ∈ match_threat_patterns asset flow tb ↔ m ∈ collectMatches asset flow tb :=
  (List.perm_insertionSort confGE _).mem_iff

theorem library_dread_range : ∀ p ∈ THREAT_PATTERNS, dreadBaseInRange p.2.suggested_dread := by
  decide

theorem library_conf_nonneg : ∀ p ∈ THREAT_PATTERNS, 0 ≤ p.2.confidence := by
  intro p hp
  fin_cases hp <;> norm_num [sql_injection_data]

theorem collect_elem_shape {asset flow : String} {tb : Option String} {m : PMatch}
    (hm : m ∈ collectMatches asset flow tb) :
    ∃ p ∈ THREAT_PATTERNS, m.data = p.2 ∧
      (m.confidence = p.2.confidence ∨ m.confidence = min (p.2.confidence + 1/10) 1) := by
  simp only [collectMatches] at hm
  obtain ⟨p, hp, he⟩ := List.mem_filterMap.mp hm
  refine ⟨p, hp, ?_⟩
  by_cases hg : p.2.regexes.any (fun r => regexMatches r (matchText asset flow tb)) = true
  · rw [if_pos hg] at he
    obtain rfl := Option.some.inj he
    refine ⟨rfl, ?_⟩
    dsimp only
    split_ifs
    · exact Or.inr rfl
    · exact Or.inl rfl
  · rw [if_neg hg] at he
    exact absurd he (Option.noConfusion)

theorem collect_conf_nonneg {asset flow : String} {tb : Option String} {m : PMatch}
    (hm : m ∈ collectMatches asset flow tb) : 0 ≤ m.confidence := by
  obtain ⟨p, hp, _, hc⟩ := collect_elem_shape hm
  have hbase := library_conf_nonneg p hp
  rcases hc with h | h
  · rw [h]; exact hbase
  · rw [h]
    exact le_min (by linarith) (by norm_num)

theorem collect_dread_range {asset flow : String} {tb : Option String} {m : PMatch}
    (hm : m ∈ collectMatches asset flow tb) : dreadBaseInRange m.data.suggested_dread := by
  obtain ⟨p, hp, hd, _⟩ := collect_elem_shape hm
  rw [hd]
  exact library_dread_range p hp

theorem pyRound_bounds {q : ℚ} (h0 : 0 ≤ q) (h1 : q ≤ 10) :
    0 ≤ pyRound q ∧ pyRound q ≤ 10 := by
  unfold pyRound
  have hf0 : (0 : ℤ) ≤ ⌊q⌋ := Int.le_floor.mpr (by exact_mod_cast h0)
  have hf1 : ⌊q⌋ ≤ 10 := by
    have h := Int.floor_le_floor h1
    simpa using h
  have hkey : ¬(q - (⌊q⌋ : ℚ) < 1/2) → ⌊q⌋ ≤ 9 := by
    intro h
    push_neg at h
    by_contra hc
    push_neg at hc
    have h10 : (10 : ℚ) ≤ (⌊q⌋ : ℚ) := by exact_mod_cast hc
    linarith
  split_ifs with h2 h3 h4
  · exact ⟨hf0, hf1⟩
  · exact ⟨by linarith, by have := hkey h2; omega⟩
  · exact ⟨hf0, hf1⟩
  · exact ⟨by linarith, by have := hkey h2; omega⟩

theorem pyRound_intCast (n : Int) : pyRound (n : ℚ) = n := by
  unfold pyRound
  rw [Int.floor_intCast]
  norm_num

theorem weightedDim_bounds (l : List PMatch) (f : DreadBase → Int)
    (hc : ∀ m ∈ l, 0 ≤ m.confidence)
    (hd : ∀ m ∈ l, 0 ≤ f m.data.suggested_dread ∧ f m.data.suggested_dread ≤ 10) :
    0 ≤ weightedDim l f ∧ weightedDim l f ≤ 10 := by
  unfold weightedDim totalWeight
  set tw0 := (l.map (·.confidence)).sum with htw0
  have h0 : 0 ≤ tw0 := by
    apply List.sum_nonneg
    intro x hx
    obtain ⟨m, hm, rfl⟩ := List.mem_map.mp hx
    exact hc m hm
  set tw : ℚ := if tw0 = 0 then 1 else tw0 with htw
  have htwpos : 0 < tw := by
    rw [htw]
    split_ifs with h
    · norm_num
    · exact lt_of_le_of_ne h0 (Ne.symm h)
  have hterm : ∀ m ∈ l, 0 ≤ (f m.data.suggested_dread : ℚ) * (m.confidence / tw) := by
    intro m hm
    have := (hd m hm).1
    exact mul_nonneg (by exact_mod_cast this) (div_nonneg (hc m hm) htwpos.le)
  have hsum0 : 0 ≤ (l.map fun m => (f m.data.suggested_dread : ℚ) * (m.confidence / tw)).sum := by
    apply List.sum_nonneg
    intro x hx
    obtain ⟨m, hm, rfl⟩ := List.mem_map.mp hx
    exact hterm m hm
  have hupper : (l.map fun m => (f m.data.suggested_dread : ℚ) * (m.confidence / tw)).sum ≤
      (l.map fun m => 10 * (m.confidence / tw)).sum := by
    apply List.sum_le_sum
    intro m hm
    have h10 : (f m.data.suggested_dread : ℚ) ≤ 10 := by exact_mod_cast (hd m hm).2
    exact mul_le_mul_of_nonneg_right h10 (div_nonneg (hc m hm) htwpos.le)
  have heq : (l.map fun m => 10 * (m.confidence / tw)).sum = 10 * (tw0 / tw) := by
    rw [List.sum_map_mul_left]
    congr 1
    have hrw : (l.map fun m => m.confidence / tw) = l.map fun m => m.confidence * tw⁻¹ := by
      simp [div_eq_mul_inv]
    rw [hrw, List.sum_map_mul_right, div_eq_mul_inv]
  have hratio : tw0 / tw ≤ 1 := by
    rw [htw]
    split_ifs with h
    · simp [h]
    · rw [div_self h]
  have hle : (l.map fun m => (f m.data.suggested_dread : ℚ) * (m.confidence / tw)).sum ≤ 10 := by
    calc (l.map fun m => (f m.data.suggested_dread : ℚ) * (m.confidence / tw)).sum ≤
        (l.map fun m => 10 * (m.confidence / tw)).sum := hupper
      _ = 10 * (tw0 / tw) := heq
      _ ≤ 10 * 1 := by linarith
      _ = 10 := by norm_num
  exact pyRound_bounds hsum0 hle

theorem suggested_dread_range (l : List PMatch)
    (hc : ∀ m ∈ l, 0 ≤ m.confidence)
    (hd : ∀ m ∈ l, dreadBaseInRange m.data.suggested_dread) :
    dreadBaseInRange (get_suggested_dread_from_patterns l) := by
  unfold get_suggested_dread_from_patterns
  split_ifs with h
  · decide
  · exact ⟨weightedDim_bounds l (·.damage) hc (fun m hm => (hd m hm).1),
      weightedDim_bounds l (·.reproducibility) hc (fun m hm => (hd m hm).2.1),
      weightedDim_bounds l (·.exploitability) hc (fun m hm => (hd m hm).2.2.1),
      weightedDim_bounds l (·.affected_users) hc (fun m hm => (hd m hm).2.2.2.1),
      weightedDim_bounds l (·.discoverability) hc (fun m hm => (hd m hm).2.2.2.2)⟩

theorem dreadBaseline_range (asset flow : String) (tb : Option String) :
    scoresMapInRange (dreadBaseline asset flow tb) := by
  have h := suggested_dread_range (match_threat_patterns asset flow tb)
    (fun m hm => collect_conf_nonneg (mem_match_iff.mp hm))
    (fun m hm => collect_dread_range (mem_match_iff.mp hm))
  exact ⟨h.1, h.2.1, h.2.2.1, h.2.2.2.1, h.2.2.2.2⟩

theorem bump_range {x : Int} (h : scoreInRange x) : scoreInRange (min (x + 1) 10) := by
  unfold scoreInRange at *
  omega

theorem adjustCritical_range (s : ScoresMap) (text : List Char) (h : scoresMapInRange s) :
    scoresMapInRange (adjustCritical s text) := by
  unfold adjustCritical
  split_ifs
  · exact ⟨bump_range h.1, h.2.1, h.2.2.1, bump_range h.2.2.2.1, h.2.2.2.2⟩
  · exact h

theorem adjustExternal_range (s : ScoresMap) (text : List Char) (h : scoresMapInRange s) :
    scoresMapInRange (adjustExternal s text) := by
  unfold adjustExternal
  split_ifs
  · exact ⟨h.1, h.2.1, bump_range h.2.2.1, h.2.2.2.1, bump_range h.2.2.2.2⟩
  · exact h

theorem adjustAuthComponent_range (s : ScoresMap) (cts : List String) (h : scoresMapInRange s) :
    scoresMapInRange (adjustAuthComponent s cts) := by
  unfold adjustAuthComponent
  split_ifs
  · exact ⟨bump_range h.1, h.2.1, h.2.2.1, bump_range h.2.2.2.1, h.2.2.2.2⟩
  · exact h

theorem adjustDatabase_range (s : ScoresMap) (cts : List String) (h : scoresMapInRange s) :
    scoresMapInRange (adjustDatabase s cts) := by
  unfold adjustDatabase
  split_ifs
  · exact ⟨bump_range h.1, h.2.1, h.2.2.1, h.2.2.2.1, h.2.2.2.2⟩
  · exact h

theorem adjust_context_range (s : ScoresMap) (asset flow : String) (cts : List String)
    (h : scoresMapInRange s) :
    scoresMapInRange (adjust_scores_by_context s asset flow cts) :=
  adjustDatabase_range _ _
    (adjustAuthComponent_range _ _
      (adjustExternal_range _ _ (adjustCritical_range _ _ h)))

theorem getD_range {o : Option Int} {x : Int} (ho : optScoreValid o) (hx : scoreInRange x) :
    scoreInRange (o.getD x) := by
  cases o with
  | none => exact hx
  | some v => exact ho

theorem applyScoreOverrides_range (s : ScoresMap) (u : UserScores)
    (hs : scoresMapInRange s) (hu : userScoresValid u) :
    scoresMapInRange (applyScoreOverrides s u) :=
  ⟨getD_range hu.1 hs.1, getD_range hu.2.1 hs.2.1, getD_range hu.2.2.1 hs.2.2.1,
   getD_range hu.2.2.2.1 hs.2.2.2.1, getD_range hu.2.2.2.2.1 hs.2.2.2.2⟩

theorem riskLevelOfMean_high_iff (m : ℚ) : riskLevelOfMean m = "High" ↔ 7 < m := by
  unfold riskLevelOfMean
  split_ifs with h1 h2
  · exact iff_of_true rfl h1
  · exact iff_of_false (by decide) h1
  · exact iff_of_false (by decide) h1

theorem riskLevelOfMean_medium_iff (m : ℚ) :
    riskLevelOfMean m = "Medium" ↔ (4 < m ∧ m ≤ 7) := by
  unfold riskLevelOfMean
  split_ifs with h1 h2
  · refine iff_of_false (by decide) ?_
    rintro ⟨-, hle⟩
    exact absurd h1 (not_lt.mpr hle)
  · exact iff_of_true rfl ⟨h2, not_lt.mp h1⟩
  · refine iff_of_false (by decide) ?_
    rintro ⟨h4, -⟩
    exact h2 h4

theorem riskLevelOfMean_low_iff (m : ℚ) : riskLevelOfMean m = "Low" ↔ m ≤ 4 := by
  unfold riskLevelOfMean
  split_ifs with h1 h2
  · refine iff_of_false (by decide) ?_
    intro hle
    linarith
  · refine iff_of_false (by decide) ?_
    intro hle
    exact absurd h2 (not_lt.mpr hle)
  · exact iff_of_true rfl (not_lt.mp h2)

/-! ## Claim theorems -/

/--
C1: for every asset, flow, optional trust boundary and user override map
whose supplied entries lie in [0, 10], suggest_dread_scores yields five
integer DREAD dimensions each inside [0, 10], the bound holding at the
pattern baseline, after each of the four contextual adjustment steps, and
after the user overrides; and the risk level computed from the mean of five
dimensions follows exactly the fixed thresholds (mean above 7 High, above 4
Medium, otherwise Low).
-/
theorem dread_suggest_scores_in_range_and_risk_thresholds
    (asset flow : String) (tb : Option String) (u : UserScores)
    (d r e a di : Int) (hu : userScoresValid u) :
    scoresMapInRange (dreadBaseline asset flow tb) ∧
    scoresMapInRange (adjustCritical (dreadBaseline asset flow tb) (assetFlowText asset flow)) ∧
    scoresMapInRange (adjustExternal
      (adjustCritical (dreadBaseline asset flow tb) (assetFlowText asset flow))
      (assetFlowText asset flow)) ∧
    scoresMapInRange (adjustAuthComponent
      (adjustExternal (adjustCritical (dreadBaseline asset flow tb) (assetFlowText asset flow))
        (assetFlowText asset flow))
      (detect_component_type asset flow)) ∧
    scoresMapInRange (adjust_scores_by_context (dreadBaseline asset flow tb) asset flow
      (detect_component_type asset flow)) ∧
    scoresMapInRange (suggest_dread_scores asset flow tb u).suggested_scores ∧
    ((calculate_dread_score d r e a di).risk_level = "High" ↔ 7 < dreadMean d r e a di) ∧
    ((calculate_dread_score d r e a di).risk_level = "Medium" ↔
      (4 < dreadMean d r e a di ∧ dreadMean d r e a di ≤ 7)) ∧
    ((calculate_dread_score d r e a di).risk_level = "Low" ↔ dreadMean d r e a di ≤ 4) := by
  have h0 := dreadBaseline_range asset flow tb
  have h1 := adjustCritical_range (dreadBaseline asset flow tb) (assetFlowText asset flow) h0
  have h2 := adjustExternal_range _ (assetFlowText asset flow) h1
  have h3 := adjustAuthComponent_range _ (detect_component_type asset flow) h2
  have h4 := adjustDatabase_range _ (detect_component_type asset flow) h3
  refine ⟨h0, h1, h2, h3, h4, ?_, ?_, ?_, ?_⟩
  · exact applyScoreOverrides_range _ u h4 hu
  · exact riskLevelOfMean_high_iff _
  · exact riskLevelOfMean_medium_iff _
  · exact riskLevelOfMean_low_iff _

/--
Witness for C1 at a concrete input: the override map supplying damage 3 is
valid, and the theorem instantiated there yields the range and threshold
facts.
-/
theorem dread_suggest_scores_in_range_witness :
    userScoresValid uWitness ∧
    scoresMapInRange (suggest_dread_scores "x" "y" none uWitness).suggested_scores ∧
    ((calculate_dread_score 8 8 8 8 8).risk_level = "High" ↔ 7 < dreadMean 8 8 8 8 8) :=
  ⟨by decide,
   (dread_suggest_scores_in_range_and_risk_thresholds "x" "y" none uWitness 8 8 8 8 8
     (by decide)).2.2.2.2.2.1,
   (dread_suggest_scores_in_range_and_risk_thresholds "x" "y" none uWitness 8 8 8 8 8
     (by decide)).2.2.2.2.2.2.1⟩

theorem insertionSort_filter_conf (l : List PMatch) (c : ℚ) :
    (List.insertionSort confGE l).filter (fun m => m.confidence = c) =
      l.filter (fun m => m.confidence = c) := by
  have hpair : (l.filter (fun m => m.confidence = c)).Pairwise confGE := by
    apply List.pairwise_of_forall_mem_list
    intro a ha b hb
    have ha2 : a.confidence = c := by simpa using (List.mem_filter.mp ha).2
    have hb2 : b.confidence = c := by simpa using (List.mem_filter.mp hb).2
    unfold confGE
    rw [ha2, hb2]
  have hsub : List.Sublist (l.filter (fun m => m.confidence = c))
      (List.insertionSort confGE l) :=
    List.sublist_insertionSort hpair (List.filter_sublist l)
  have hsub2 : List.Sublist (l.filter (fun m => m.confidence = c))
      ((List.insertionSort confGE l).filter (fun m => m.confidence = c)) := by
    have h := List.Sublist.filter (fun m => decide (m.confidence = c)) hsub
    simpa [List.filter_filter] using h
  have hperm : ((List.insertionSort confGE l).filter (fun m => m.confidence = c)).Perm
      (l.filter (fun m => m.confidence = c)) :=
    (List.perm_insertionSort confGE l).filter _
  exact (hsub2.eq_of_length hperm.length_eq.symm).symm

/--
C6: for every asset, flow and optional trust boundary, match_threat_patterns
is sorted non-increasing by resolved confidence; entries of any fixed
confidence appear exactly as in the unsorted collection list, which is a
filterMap over the library in declaration order, so ties keep declaration
order (stability); and when nothing is collected the output is the empty
list (no exception path exists, the function is total).
-/
theorem match_patterns_sorted_stable (asset flow : String) (tb : Option String) :
    List.Sorted confGE (match_threat_patterns asset flow tb) ∧
    (∀ c : ℚ, (match_threat_patterns asset flow tb).filter (fun m => m.confidence = c) =
      (collectMatches asset flow tb).filter (fun m => m.confidence = c)) ∧
    (collectMatches asset flow tb = [] → match_threat_patterns asset flow tb = []) := by
  refine ⟨List.sorted_insertionSort confGE _, fun c => insertionSort_filter_conf _ c, fun h => ?_⟩
  unfold match_threat_patterns
  rw [h]
  rfl

/--
Witness for C6 at a concrete input matching no pattern: the collection is
empty and the theorem yields the empty output.
-/
theorem match_patterns_sorted_stable_witness :
    collectMatches "q" "q" none = [] ∧ match_threat_patterns "q" "q" none = [] :=
  ⟨by decide, (match_patterns_sorted_stable "q" "q" none).2.2 (by decide)⟩

/--
C7: for every input, including empty asset and flow, the basic and the
advanced STRIDE classification return a non-empty category set; when the
keyword fallback finds nothing the basic result is exactly the default pair
Tampering and Information Disclosure (through the Data Flow Crossing
Boundary mapping or the plain default, which coincide), and when
additionally no pattern matched the advanced result is that same pair.
-/
theorem stride_classification_nonempty_default (asset flow : String) (tb : Option String) :
    analyze_threat asset flow tb ≠ ∅ ∧
    analyze_threat_advanced_categories asset flow tb ≠ ∅ ∧
    (strideKeywordCats flow tb = ∅ →
      analyze_threat asset flow tb = {"Tampering", "Information Disclosure"}) ∧
    (get_stride_from_patterns (match_threat_patterns asset flow tb) = ∅ →
      strideKeywordCats flow tb = ∅ →
      analyze_threat_advanced_categories asset flow tb =
        {"Tampering", "Information Disclosure"}) := by
  have hdef : ∀ h : strideKeywordCats flow tb = ∅,
      analyze_threat asset flow tb = {"Tampering", "Information Disclosure"} := by
    intro h
    unfold analyze_threat
    rw [if_pos h]
    split_ifs
    · rfl
    · rfl
  have hne : analyze_threat asset flow tb ≠ ∅ := by
    by_cases h : strideKeywordCats flow tb = ∅
    · rw [hdef h]
      decide
    · unfold analyze_threat
      rw [if_neg h]
      exact h
  refine ⟨hne, ?_, hdef, fun hp hk => ?_⟩
  · unfold analyze_threat_advanced_categories
    split_ifs with h
    · exact hne
    · exact h
  · unfold analyze_threat_advanced_categories
    rw [if_pos hp]
    exact hdef hk

/--
Witness for C7 at the empty input and at an input with a trust boundary:
the keyword fallback finds nothing and the default pair is returned.
-/
theorem stride_classification_nonempty_default_witness :
    strideKeywordCats "" none = ∅ ∧
    analyze_threat "" "" none = {"Tampering", "Information Disclosure"} ∧
    analyze_threat_advanced_categories "" "" none = {"Tampering", "Information Disclosure"} :=
  ⟨by decide,
   (stride_classification_nonempty_default "" "" none).2.2.1 (by decide),
   (stride_classification_nonempty_default "" "" none).2.2.2 (by decide) (by decide)⟩

/--
C10: for every risk level string other than High and Medium (including the
empty string), the risk-level stage contributes exactly the low-priority
monitor catch-all entry, the STRIDE stage returns its base sets unchanged
(no escalation), and the component stage behaves as for Medium (its two
conditional entries stay medium); the engine is a total function, so no
input raises.
-/
theorem mitigation_engine_unknown_risk (risk : String)
    (h1 : risk ≠ "High") (h2 : risk ≠ "Medium") :
    get_risk_level_mitigations risk = [monitorMitigation] ∧
    (∀ category, get_stride_mitigations category risk = baseStrideMitigations category) ∧
    (∀ cts, get_component_mitigations cts risk = get_component_mitigations cts "Medium") := by
  have hm : ("Medium" : String) ≠ "High" := by decide
  refine ⟨?_, fun category => ?_, fun cts => ?_⟩
  · unfold get_risk_level_mitigations
    rw [if_neg h1, if_neg h2]
  · unfold get_stride_mitigations
    rw [if_neg h1]
  · unfold get_component_mitigations
    simp only [if_neg h1, if_neg hm]

/--
Witness for C10 at the unknown risk label Critical.
-/
theorem mitigation_engine_unknown_risk_witness :
    get_risk_level_mitigations "Critical" = [monitorMitigation] ∧
    get_stride_mitigations "Tampering" "Critical" = baseStrideMitigations "Tampering" :=
  ⟨(mitigation_engine_unknown_risk "Critical" (by decide) (by decide)).1,
   (mitigation_engine_unknown_risk "Critical" (by decide) (by decide)).2.1 "Tampering"⟩

/--
C2 counterexample: under overall High risk with primary pattern
sql_injection and no STRIDE categories or components, the medium-priority
pattern mitigation about least database privilege survives in the output at
priority medium, so the claimed single upgrade pass over all collected sets
does not happen.
-/
theorem mitigation_high_risk_medium_survives :
    (⟨"Apply principle of least privilege to database user accounts", "medium", "medium", 7⟩ :
        Mitig) ∈ (get_mitigations [] "High" (some "sql_injection") none).mitigations ∧
    (get_mitigations [] "High" (some "sql_injection") none).medium_priority_count = 1 := by
  decide

/--
C2 amended: the medium-to-high escalation under High risk is applied inside
the STRIDE-category stage only, per category before the sets are merged: no
entry of the STRIDE stage output keeps priority medium under High risk,
while pattern, component and risk-level entries are never rewritten.
-/
theorem stride_stage_escalation (category : String) (m : Mitig)
    (hm : m ∈ get_stride_mitigations category "High") : m.priority ≠ "medium" := by
  unfold get_stride_mitigations at hm
  rw [if_pos rfl] at hm
  obtain ⟨m', hm', rfl⟩ := List.mem_map.mp hm
  by_cases h : m'.priority = "medium"
  · rw [if_pos h]
    show ("high" : String) ≠ "medium"
    decide
  · rw [if_neg h]
    exact h

/--
Witness for the amended C2 at the Tampering category under High risk: the
escalated HTTPS entry is present and not medium.
-/
theorem stride_stage_escalation_witness :
    (⟨"Use HTTPS/TLS for all network communications", "high", "easy", 7⟩ : Mitig)
      ∈ get_stride_mitigations "Tampering" "High" ∧
    (⟨"Use HTTPS/TLS for all network communications", "high", "easy", 7⟩ : Mitig).priority ≠
      "medium" :=
  ⟨by decide, stride_stage_escalation "Tampering" _ (by decide)⟩

theorem detect_nonempty (asset flow : String) : detect_component_type asset flow ≠ [] := by
  unfold detect_component_type
  split_ifs with h
  · simp
  · exact h

theorem baseConfidence_no_matches (cts : List String) (h : cts ≠ []) :
    baseConfidence [] cts = 1/2 := by
  unfold baseConfidence avgPatternConfidence componentBoost
  rw [if_pos rfl, if_neg h]
  have he : (2/5 + 1/10 : ℚ) = 1/2 := by norm_num
  rw [he]
  exact min_eq_left (by norm_num)

theorem calculate_confidence_no_matches (scores : ScoresMap) (cts : List String)
    (hcts : cts ≠ []) :
    calculate_confidence [] scores cts =
      ⟨1/2, 1/2, 1/2, 1/2, 1/2, scores.information_disclosure.map fun _ => 1/2⟩ := by
  unfold calculate_confidence dimConfidence
  rw [baseConfidence_no_matches cts hcts]
  simp

theorem applyConfOverrides_id (c : ConfMap) : applyConfOverrides c noUserScores = c := by
  unfold applyConfOverrides noUserScores
  simp

/--
C8: the component detector returns a non-empty list for every input, so the
0.1 component bonus of the confidence computation is applied for every
input (the no-components branch is unreachable); consequently, when no
pattern matches and no override is supplied, every confidence entry of the
scorer output equals exactly 0.5 (0.4 base plus the 0.1 bonus).
-/
theorem component_detection_always_boosts (asset flow : String) (tb : Option String) :
    detect_component_type asset flow ≠ [] ∧
    componentBoost (detect_component_type asset flow) = 1/10 ∧
    (match_threat_patterns asset flow tb = [] →
      (suggest_dread_scores asset flow tb noUserScores).confidence.damage = 1/2 ∧
      (suggest_dread_scores asset flow tb noUserScores).confidence.reproducibility = 1/2 ∧
      (suggest_dread_scores asset flow tb noUserScores).confidence.exploitability = 1/2 ∧
      (suggest_dread_scores asset flow tb noUserScores).confidence.affected_users = 1/2 ∧
      (suggest_dread_scores asset flow tb noUserScores).confidence.discoverability = 1/2 ∧
      ((suggest_dread_scores asset flow tb noUserScores).confidence.information_disclosure = none ∨
       (suggest_dread_scores asset flow tb noUserScores).confidence.information_disclosure =
         some (1/2))) := by
  have hne := detect_nonempty asset flow
  refine ⟨hne, ?_, fun h => ?_⟩
  · unfold componentBoost
    rw [if_neg hne]
  · have hconf : (suggest_dread_scores asset flow tb noUserScores).confidence =
        calculate_confidence (match_threat_patterns asset flow tb)
          (adjust_scores_by_context (dreadBaseline asset flow tb) asset flow
            (detect_component_type asset flow))
          (detect_component_type asset flow) := by
      simp only [suggest_dread_scores]
      rw [applyConfOverrides_id]
    rw [hconf, h, calculate_confidence_no_matches _ _ hne]
    refine ⟨rfl, rfl, rfl, rfl, rfl, ?_⟩
    cases (adjust_scores_by_context (dreadBaseline asset flow tb) asset flow
        (detect_component_type asset flow)).information_disclosure with
    | none => exact Or.inl rfl
    | some v => exact Or.inr rfl

/--
Witness for C8 at a concrete input matching no pattern.
-/
theorem component_detection_always_boosts_witness :
    match_threat_patterns "q" "q" none = [] ∧
    (suggest_dread_scores "q" "q" none noUserScores).confidence.damage = 1/2 :=
  ⟨by decide, ((component_detection_always_boosts "q" "q" none).2.2 (by decide)).1⟩

theorem adjustCritical_info (s : ScoresMap) (text : List Char) :
    (adjustCritical s text).information_disclosure = s.information_disclosure := by
  unfold adjustCritical
  split_ifs <;> rfl

theorem adjustExternal_info (s : ScoresMap) (text : List Char) :
    (adjustExternal s text).information_disclosure = s.information_disclosure := by
  unfold adjustExternal
  split_ifs <;> rfl

theorem adjustAuthComponent_info (s : ScoresMap) (cts : List String) :
    (adjustAuthComponent s cts).information_disclosure = s.information_disclosure := by
  unfold adjustAuthComponent
  split_ifs <;> rfl

theorem adjustDatabase_of_db {s : ScoresMap} {cts : List String} (h : "database" ∈ cts) :
    adjustDatabase s cts =
      { s with damage := min (s.damage + 1) 10,
               information_disclosure :=
                 some (min ((s.information_disclosure.getD (min (s.damage + 1) 10)) + 1) 10) } := by
  unfold adjustDatabase
  rw [if_pos (List.elem_eq_true_of_mem h)]

theorem adjustDatabase_of_not_db {s : ScoresMap} {cts : List String} (h : "database" ∉ cts) :
    adjustDatabase s cts = s := by
  unfold adjustDatabase
  rw [if_neg]
  intro hc
  exact h (by simpa using hc)

theorem adjust_context_db_info {base : ScoresMap} (hbase : base.information_disclosure = none)
    (asset flow : String) (cts : List String) (h : "database" ∈ cts) :
    (adjust_scores_by_context base asset flow cts).information_disclosure =
      some (min ((adjust_scores_by_context base asset flow cts).damage + 1) 10) := by
  unfold adjust_scores_by_context
  rw [adjustDatabase_of_db h]
  have h3 : (adjustAuthComponent
      (adjustExternal (adjustCritical base (assetFlowText asset flow)) (assetFlowText asset flow))
      cts).information_disclosure = none := by
    rw [adjustAuthComponent_info, adjustExternal_info, adjustCritical_info, hbase]
  rw [h3]
  rfl

theorem adjust_context_no_db_info {base : ScoresMap} (hbase : base.information_disclosure = none)
    (asset flow : String) (cts : List String) (h : "database" ∉ cts) :
    (adjust_scores_by_context base asset flow cts).information_disclosure = none := by
  unfold adjust_scores_by_context
  rw [adjustDatabase_of_not_db h, adjustAuthComponent_info, adjustExternal_info,
    adjustCritical_info, hbase]

/--
C9: whenever the detected component types include database, the score
dictionary returned by suggest_dread_scores carries the sixth key
information_disclosure, equal (absent overrides on it and on damage) to the
already database-adjusted damage value plus one capped at 10, replaceable
through the user overrides like the other keys; the downstream total of the
threat detector therefore sums six values and still divides by five.  When
no database component is detected the sixth key is absent.
-/
theorem database_extra_dimension (asset flow : String) (tb : Option String) (u : UserScores) :
    ("database" ∈ detect_component_type asset flow →
      ((suggest_dread_scores asset flow tb u).suggested_scores.information_disclosure.isSome
          = true) ∧
      (∀ w, u.information_disclosure = some w →
        (suggest_dread_scores asset flow tb u).suggested_scores.information_disclosure
          = some w) ∧
      (u.information_disclosure = none → u.damage = none →
        (suggest_dread_scores asset flow tb u).suggested_scores.information_disclosure =
          some (min ((suggest_dread_scores asset flow tb u).suggested_scores.damage + 1) 10)) ∧
      (∃ iv : Int,
        (suggest_dread_scores asset flow tb u).suggested_scores.information_disclosure
            = some iv ∧
        detector_total_score (suggest_dread_scores asset flow tb u).suggested_scores =
          (((suggest_dread_scores asset flow tb u).suggested_scores.damage +
            (suggest_dread_scores asset flow tb u).suggested_scores.reproducibility +
            (suggest_dread_scores asset flow tb u).suggested_scores.exploitability +
            (suggest_dread_scores asset flow tb u).suggested_scores.affected_users +
            (suggest_dread_scores asset flow tb u).suggested_scores.discoverability +
            iv : Int) : ℚ) / 5)) ∧
    ("database" ∉ detect_component_type asset flow →
      (suggest_dread_scores asset flow tb u).suggested_scores.information_disclosure = none) := by
  have hS : (suggest_dread_scores asset flow tb u).suggested_scores =
      applyScoreOverrides (adjust_scores_by_context (dreadBaseline asset flow tb) asset flow
        (detect_component_type asset flow)) u := by
    simp only [suggest_dread_scores]
  constructor
  · intro h
    have hinfo := @adjust_context_db_info (dreadBaseline asset flow tb) rfl asset flow (detect_component_type asset flow) h
    have hfin : (suggest_dread_scores asset flow tb u).suggested_scores.information_disclosure =
        some (u.information_disclosure.getD
          (min ((adjust_scores_by_context (dreadBaseline asset flow tb) asset flow
            (detect_component_type asset flow)).damage + 1) 10)) := by
      rw [hS]
      simp only [applyScoreOverrides]
      rw [hinfo]
      rfl
    refine ⟨?_, ?_, ?_, ?_⟩
    · rw [hfin]
      rfl
    · intro w hw
      rw [hfin, hw]
      rfl
    · intro h1 h2
      rw [hfin, h1]
      have hdmg : (suggest_dread_scores asset flow tb u).suggested_scores.damage =
          (adjust_scores_by_context (dreadBaseline asset flow tb) asset flow
            (detect_component_type asset flow)).damage := by
        rw [hS]
        simp only [applyScoreOverrides]
        rw [h2]
        rfl
      rw [hdmg]
      rfl
    · refine ⟨u.information_disclosure.getD
          (min ((adjust_scores_by_context (dreadBaseline asset flow tb) asset flow
            (detect_component_type asset flow)).damage + 1) 10), hfin, ?_⟩
      unfold detector_total_score scoresValuesSum
      rw [hfin]
      rfl
  · intro h
    rw [hS]
    simp only [applyScoreOverrides]
    rw [@adjust_context_no_db_info (dreadBaseline asset flow tb) rfl asset flow (detect_component_type asset flow) h]
    rfl

/--
Witness for C9 at a database input with an override on the extra key.
-/
theorem database_extra_dimension_witness :
    "database" ∈ detect_component_type "db" "x" ∧
    (suggest_dread_scores "db" "x" none uInfoWitness).suggested_scores.information_disclosure =
      some 4 :=
  ⟨by decide, (((database_extra_dimension "db" "x" none uInfoWitness).1 (by decide)).2.1) 4 rfl⟩

theorem pyRound_ofNat (n : ℕ) : pyRound (n : ℚ) = n := by
  have h := pyRound_intCast (n : ℤ)
  rw [Int.cast_natCast] at h
  exact h

theorem weightedDim_of_total_ne {ms : List PMatch} (h : totalWeight ms ≠ 0)
    (f : DreadBase → Int) :
    weightedDim ms f =
      pyRound ((ms.map fun m => (f m.data.suggested_dread : ℚ) * m.confidence).sum /
        totalWeight ms) := by
  unfold weightedDim
  simp only [if_neg h]
  congr 1
  have hc : (ms.map fun m =>
      (f m.data.suggested_dread : ℚ) * (m.confidence / totalWeight ms)) =
      ms.map fun m =>
        ((f m.data.suggested_dread : ℚ) * m.confidence) * (totalWeight ms)⁻¹ := by
    apply List.map_congr_left
    intro m _
    ring
  rw [hc, List.sum_map_mul_right, ← div_eq_mul_inv]

theorem weightedDim_of_all_zero {ms : List PMatch} (h : ∀ m ∈ ms, m.confidence = 0)
    (f : DreadBase → Int) : weightedDim ms f = 0 := by
  have hz : (ms.map fun m => (f m.data.suggested_dread : ℚ) *
      (m.confidence / (if totalWeight ms = 0 then 1 else totalWeight ms))).sum = 0 := by
    apply List.sum_eq_zero
    intro x hx
    obtain ⟨m, hm, rfl⟩ := List.mem_map.mp hx
    rw [h m hm]
    simp
  unfold weightedDim
  rw [hz]
  simpa using pyRound_intCast 0

/--
C4 counterexample: on a match list with total confidence 0 (one sql_injection
match at confidence 0) the code substitutes divisor 1, so every weight equals
the raw confidence 0 and the damage baseline is 0, while the uniform-weights
reading of the specification yields the plain average 9.
-/
theorem dread_baseline_zero_weight_not_uniform :
    (get_suggested_dread_from_patterns [mZeroConf]).damage = 0 ∧
    (dread_baseline_spec [mZeroConf]).damage = 9 := by
  constructor
  · unfold get_suggested_dread_from_patterns
    rw [if_neg (List.cons_ne_nil _ _)]
    show weightedDim [mZeroConf] (·.damage) = 0
    apply weightedDim_of_all_zero
    intro m hm
    rw [List.mem_singleton.mp hm]
    rfl
  · unfold dread_baseline_spec
    rw [if_neg (List.cons_ne_nil _ _)]
    show specBaselineDim [mZeroConf] (·.damage) = 9
    unfold specBaselineDim totalWeight
    norm_num [mZeroConf, sql_injection_data]
    simpa using pyRound_intCast 9

/--
C4 amended: the baseline is 5 on every dimension for an empty match list;
when the total confidence is non-zero each dimension is the rounded
confidence-weighted average (the sum of baseline times confidence divided by
the total confidence, which is the normalized-weights average of the
specification); but when the total confidence is 0 the divisor is replaced
by 1, so each weight equals the raw confidence and a match list whose
confidences are all 0 yields 0 on every dimension, not the plain average.
-/
theorem dread_baseline_weighted_average (ms : List PMatch) :
    (ms = [] → get_suggested_dread_from_patterns ms = ⟨5, 5, 5, 5, 5⟩) ∧
    (totalWeight ms ≠ 0 →
      ((get_suggested_dread_from_patterns ms).damage =
        pyRound ((ms.map fun m => (m.data.suggested_dread.damage : ℚ) * m.confidence).sum /
          totalWeight ms) ∧
       (get_suggested_dread_from_patterns ms).reproducibility =
        pyRound ((ms.map
          fun m => (m.data.suggested_dread.reproducibility : ℚ) * m.confidence).sum /
          totalWeight ms) ∧
       (get_suggested_dread_from_patterns ms).exploitability =
        pyRound ((ms.map
          fun m => (m.data.suggested_dread.exploitability : ℚ) * m.confidence).sum /
          totalWeight ms) ∧
       (get_suggested_dread_from_patterns ms).affected_users =
        pyRound ((ms.map
          fun m => (m.data.suggested_dread.affected_users : ℚ) * m.confidence).sum /
          totalWeight ms) ∧
       (get_suggested_dread_from_patterns ms).discoverability =
        pyRound ((ms.map
          fun m => (m.data.suggested_dread.discoverability : ℚ) * m.confidence).sum /
          totalWeight ms))) ∧
    ((∀ m ∈ ms, m.confidence = 0) → ms ≠ [] →
      get_suggested_dread_from_patterns ms = ⟨0, 0, 0, 0, 0⟩) := by
  refine ⟨fun h => ?_, fun h => ?_, fun h hne => ?_⟩
  · subst h
    rfl
  · have hne : ms ≠ [] := by
      intro hx
      subst hx
      exact h rfl
    unfold get_suggested_dread_from_patterns
    rw [if_neg hne]
    exact ⟨weightedDim_of_total_ne h _, weightedDim_of_total_ne h _,
      weightedDim_of_total_ne h _, weightedDim_of_total_ne h _, weightedDim_of_total_ne h _⟩
  · unfold get_suggested_dread_from_patterns
    rw [if_neg hne]
    have hz := weightedDim_of_all_zero h
    rw [DreadBase.mk.injEq]
    exact ⟨hz _, hz _, hz _, hz _, hz _⟩

/--
Witness for the amended C4 on a singleton sql_injection match with positive
confidence.
-/
theorem dread_baseline_weighted_average_witness :
    totalWeight [mNormal] ≠ 0 ∧
    (get_suggested_dread_from_patterns [mNormal]).damage =
      pyRound ((([mNormal]).map fun m => (m.data.suggested_dread.damage : ℚ) * m.confidence).sum /
        totalWeight [mNormal]) :=
  ⟨by norm_num [totalWeight, mNormal],
   ((dread_baseline_weighted_average [mNormal]).2.1 (by norm_num [totalWeight, mNormal])).1⟩

theorem jaccard_self_one (s : Finset String) (h : s ≠ ∅) : jaccardOrZero s s = 1 := by
  unfold jaccardOrZero
  rw [Finset.union_self, Finset.inter_self, if_neg h]
  have hpos : (0 : ℚ) < s.card := by
    exact_mod_cast Finset.card_pos.mpr (Finset.nonempty_iff_ne_empty.mpr h)
  exact div_self (ne_of_gt hpos)

theorem jaccard_empty_zero : jaccardOrZero ∅ ∅ = 0 := by
  unfold jaccardOrZero
  rw [if_pos (Finset.union_self ∅)]

theorem assetFactor_self (t c : Threat) (h : lowerL t.asset.data = lowerL c.asset.data) :
    assetFactor t c = 1 := by
  unfold assetFactor
  rw [if_pos h]

theorem riskFactor_self (t c : Threat) (h : t.risk_level = c.risk_level) :
    riskFactor t c = 1 := by
  unfold riskFactor
  rw [h]
  norm_num

theorem dreadFactor_self (t c : Threat) (h : t.dread_score = c.dread_score) :
    dreadFactor t c = 1 := by
  unfold dreadFactor dreadDimSim
  rw [h]
  norm_num

theorem calculate_similarity_eq_one (t c : Threat) (tp ts : Finset String)
    (h1 : lowerL t.asset.data = lowerL c.asset.data)
    (h2 : ts = strideSetOf c) (h2n : strideSetOf c ≠ ∅)
    (h3 : tp = patternNamesOf c) (h3n : patternNamesOf c ≠ ∅)
    (h4 : t.risk_level = c.risk_level)
    (h5 : t.dread_score = c.dread_score) :
    calculate_similarity t c tp ts = 1 := by
  unfold calculate_similarity
  rw [assetFactor_self t c h1, h2, jaccard_self_one _ h2n, h3, jaccard_self_one _ h3n,
    riskFactor_self t c h4, dreadFactor_self t c h5]
  norm_num

theorem calculate_similarity_no_patterns (t c : Threat) (tp ts : Finset String)
    (h1 : lowerL t.asset.data = lowerL c.asset.data)
    (h2 : ts = strideSetOf c) (h2n : strideSetOf c ≠ ∅)
    (h3 : tp = ∅) (h3n : patternNamesOf c = ∅)
    (h4 : t.risk_level = c.risk_level)
    (h5 : t.dread_score = c.dread_score) :
    calculate_similarity t c tp ts = 4/5 := by
  unfold calculate_similarity
  rw [assetFactor_self t c h1, h2, jaccard_self_one _ h2n, h3, h3n, jaccard_empty_zero,
    riskFactor_self t c h4, dreadFactor_self t c h5]
  norm_num

/--
C5 counterexample: two records identical in every field except the id, with
identical asset, identical non-empty STRIDE sets and identical DREAD scores,
whose text matches no library pattern: the pattern factor contributes 0 over
an always-5 denominator, so the pairwise similarity is 0.8, not 1.0.
-/
theorem similarity_identical_threats_not_one :
    similarityBetween noPatT1 noPatT2 = 4/5 ∧ (4/5 : ℚ) ≠ 1 := by
  refine ⟨?_, by norm_num⟩
  unfold similarityBetween
  apply calculate_similarity_no_patterns
  · rfl
  · rfl
  · decide
  · decide
  · decide
  · rfl
  · rfl

/--
C5 amended: the pairwise similarity equals 1.0 exactly when, in addition to
identical asset text, identical non-empty STRIDE sets, identical DREAD
scores and identical risk levels, the two records also match the same
non-empty set of library patterns; the pattern factor otherwise drags the
mean below 1 even for identical records.
-/
theorem similarity_one_for_fully_identical (t c : Threat)
    (h1 : lowerL t.asset.data = lowerL c.asset.data)
    (h2 : strideSetOf t = strideSetOf c) (h2n : strideSetOf c ≠ ∅)
    (h3 : patternNamesOf t = patternNamesOf c) (h3n : patternNamesOf c ≠ ∅)
    (h4 : t.risk_level = c.risk_level)
    (h5 : t.dread_score = c.dread_score) :
    similarityBetween t c = 1 :=
  calculate_similarity_eq_one t c _ _ h1 h2 h2n h3 h3n h4 h5

/--
Witness for the amended C5: a record matching the sql_injection pattern is
fully similar to itself.
-/
theorem similarity_one_for_fully_identical_witness :
    strideSetOf simT1 ≠ ∅ ∧ patternNamesOf simT1 ≠ ∅ ∧ similarityBetween simT1 simT1 = 1 :=
  ⟨by decide, by decide,
   similarity_one_for_fully_identical simT1 simT1 rfl rfl (by decide) rfl (by decide) rfl rfl⟩

theorem pyRound2_one : pyRound2 1 = 1 := by
  unfold pyRound2
  rw [(by norm_num : ((1 : ℚ) * 100) = ((100 : ℤ) : ℚ)), pyRound_intCast]
  norm_num

theorem pct_of_one : (pyRound ((1 : ℚ) * 100 * 10) : ℚ) / 10 = 100 := by
  rw [(by norm_num : ((1 : ℚ) * 100 * 10) = ((1000 : ℤ) : ℚ)), pyRound_intCast]
  norm_num

theorem similarityEntries_nil (target : Threat) : similarityEntries target [] = [] := rfl

theorem similarityEntries_cons_one (target t : Threat) (rest : List Threat)
    (hid : t.id ≠ target.id)
    (hsim : calculate_similarity target t (patternNamesOf target) (strideSetOf target) = 1) :
    similarityEntries target (t :: rest) = ⟨t, 1, 100⟩ :: similarityEntries target rest := by
  unfold similarityEntries
  rw [List.filter_cons_of_pos (by simpa using hid)]
  apply List.filterMap_cons_some
  simp only [hsim]
  rw [if_pos (by norm_num : (0 : ℚ) < 1), pyRound2_one, pct_of_one]

theorem find_similar_clones_eval (lim : Int) :
    find_similar_threats simT0 [simT1, simT2] lim =
      pySlice [⟨simT1, 1, 100⟩, ⟨simT2, 1, 100⟩] lim := by
  have hsim1 : calculate_similarity simT0 simT1 (patternNamesOf simT0) (strideSetOf simT0) = 1 :=
    calculate_similarity_eq_one _ _ _ _ rfl rfl (by decide) rfl (by decide) rfl rfl
  have hsim2 : calculate_similarity simT0 simT2 (patternNamesOf simT0) (strideSetOf simT0) = 1 :=
    calculate_similarity_eq_one _ _ _ _ rfl rfl (by decide) rfl (by decide) rfl rfl
  have he : similarityEntries simT0 [simT1, simT2] = [⟨simT1, 1, 100⟩, ⟨simT2, 1, 100⟩] := by
    rw [similarityEntries_cons_one _ _ _ (by decide) hsim1,
        similarityEntries_cons_one _ _ _ (by decide) hsim2, similarityEntries_nil]
  unfold find_similar_threats
  rw [he]
  congr 1

/--
C3 counterexample: with a negative limit the Python slice keeps all but the
last entries instead of returning the empty list: on a corpus of two clones
of the target (both at similarity 1) and limit -1, find_similar returns one
entry, not zero, contradicting both the empty-result reading of limit at
most 0 and the at-most-limit bound.
-/
theorem find_similar_negative_limit_nonempty :
    (-1 : Int) ≤ 0 ∧ (find_similar_threats simT0 [simT1, simT2] (-1)).length = 1 := by
  refine ⟨by norm_num, ?_⟩
  rw [find_similar_clones_eval (-1)]
  unfold pySlice
  rw [if_neg (by norm_num)]
  norm_num

/--
C3 amended: find_similar never returns the target itself; for a nonnegative
limit it returns at most limit entries, and limit 0 yields the empty list;
a negative limit instead drops that many entries from the end of the ranked
list (Python slice semantics), which can leave a non-empty result.
-/
theorem find_similar_excludes_target_and_bounds (target : Threat) (corpus : List Threat)
    (limit : Int) :
    (∀ entry ∈ find_similar_threats target corpus limit, entry.threat.id ≠ target.id) ∧
    (0 ≤ limit → ((find_similar_threats target corpus limit).length : Int) ≤ limit) ∧
    (limit = 0 → find_similar_threats target corpus limit = []) := by
  refine ⟨?_, ?_, ?_⟩
  · intro entry he
    unfold find_similar_threats pySlice at he
    have hmem : entry ∈ List.insertionSort simGE (similarityEntries target corpus) := by
      split_ifs at he <;> exact List.take_subset _ _ he
    have hmem2 : entry ∈ similarityEntries target corpus :=
      (List.perm_insertionSort simGE _).subset hmem
    unfold similarityEntries at hmem2
    obtain ⟨t, ht, he2⟩ := List.mem_filterMap.mp hmem2
    have htid : t.id ≠ target.id := by simpa using (List.mem_filter.mp ht).2
    split_ifs at he2
    obtain rfl := Option.some.inj he2
    exact htid
  · intro hl
    unfold find_similar_threats pySlice
    rw [if_pos hl]
    have h2 : (List.take limit.toNat
        (List.insertionSort simGE (similarityEntries target corpus))).length ≤ limit.toNat := by
      rw [List.length_take]
      exact min_le_left _ _
    have h3 : ((List.take limit.toNat
        (List.insertionSort simGE (similarityEntries target corpus))).length : Int) ≤
        (limit.toNat : Int) := by exact_mod_cast h2
    rwa [Int.toNat_of_nonneg hl] at h3
  · intro h0
    subst h0
    unfold find_similar_threats pySlice
    simp

/--
Witness for the amended C3 at limit 0 on the empty corpus.
-/
theorem find_similar_excludes_target_and_bounds_witness :
    (0 : Int) ≤ 0 ∧ ((find_similar_threats simT0 [] 0).length : Int) ≤ 0 ∧
    find_similar_threats simT0 [] 0 = [] :=
  ⟨le_refl 0,
   (find_similar_excludes_target_and_bounds simT0 [] 0).2.1 (le_refl 0),
   (find_similar_excludes_target_and_bounds simT0 [] 0).2.2 rfl⟩

end Sentinal
